/-
Verification of the road-safety analytics pipeline (src/milestone4.py and
src/app.py) against its natural-language specification.

Shallow embedding: a pandas DataFrame row becomes a `Record`; a DataFrame
becomes a `List Record` in source order.  `pd.to_datetime(..., errors='coerce')`
is folded into the raw input: a raw row carries `Option Timestamp`, where
`none` means the `Start_Time` cell was missing or unparsable (NaT).  Boolean
mask filtering (`df[mask]`) becomes `List.filter`; pandas comparisons against
NaN/NaT evaluate to False, which the `Option`-matching predicates reproduce.
The categorical-dtype conversion in `load_data` (milestone4.py lines 46-47) is
a memory optimization with no effect on values and is not modelled.
-/
import Mathlib

set_option maxHeartbeats 1000000

/-- A parsed `Start_Time` value.  Only the fields the pipeline derives from it
(`dt.hour`, `dt.day_name()`, `dt.date`) are modelled. -/
structure Timestamp where
  hour : Nat
  weekday : String
  date : String
deriving DecidableEq, Repr

/-- One raw CSV row, restricted to the columns either app materializes.
`start_time` is the post-`to_datetime(errors='coerce')` value: `none` means
missing or unparsable.  `street`/`zipcode` exist in the full CSV read by
app.py (milestone4.py's `usecols` excludes them). -/
structure RawRecord where
  severity : Nat
  start_time : Option Timestamp
  start_lat : Option ℚ
  start_lng : Option ℚ
  city : Option String
  state : Option String
  weather_condition : Option String
  street : Option String
  zipcode : Option String
deriving DecidableEq, Repr

/-- A row of the loaded DataFrame after feature engineering: the raw columns
plus the derived `Hour`, `Date`, `Weekday` columns. -/
structure Record where
  severity : Nat
  start_time : Option Timestamp
  start_lat : Option ℚ
  start_lng : Option ℚ
  city : Option String
  state : Option String
  weather_condition : Option String
  hour : Option Nat
  date : Option String
  weekday : Option String
deriving DecidableEq, Repr, Inhabited

/-- Feature engineering of milestone4.py `load_data` lines 53-56:
`Hour = Start_Time.dt.hour`, `Date = Start_Time.dt.date`,
`Weekday = Start_Time.dt.day_name()`; each is NaN when `Start_Time` is NaT. -/
def deriveFeatures (r : RawRecord) : Record :=
  { severity := r.severity
    start_time := r.start_time
    start_lat := r.start_lat
    start_lng := r.start_lng
    city := r.city
    state := r.state
    weather_condition := r.weather_condition
    hour := r.start_time.map Timestamp.hour
    date := r.start_time.map Timestamp.date
    weekday := r.start_time.map Timestamp.weekday }

/-- milestone4.py line 50: `df.dropna(subset=['City', 'Start_Lat', 'Start_Lng'])`
keeps a row iff these three cells are non-null.  `State` is not in the subset. -/
def dropnaLocation (r : RawRecord) : Bool :=
  r.city.isSome && r.start_lat.isSome && r.start_lng.isSome

/-- milestone4.py `load_data` (lines 23-58): read at most 500000 rows, drop rows
with null `City`/`Start_Lat`/`Start_Lng`, parse `Start_Time` and derive
`Hour`/`Date`/`Weekday`. -/
def load_data (raw : List RawRecord) : List Record :=
  ((raw.take 500000).filter dropnaLocation).map deriveFeatures

/-- app.py line 22: `df.dropna(subset=['Street', 'City', 'Zipcode', 'Start_Lat',
'Start_Lng'])`.  Again `State` is not in the subset. -/
def dropnaLocationApp (r : RawRecord) : Bool :=
  r.street.isSome && r.city.isSome && r.zipcode.isSome &&
    r.start_lat.isSome && r.start_lng.isSome

/-- app.py feature engineering (lines 23-25): only `Hour` and `Weekday` are
derived; app.py has no `Date` column, modelled as a constantly-null field. -/
def deriveFeaturesApp (r : RawRecord) : Record :=
  { severity := r.severity
    start_time := r.start_time
    start_lat := r.start_lat
    start_lng := r.start_lng
    city := r.city
    state := r.state
    weather_condition := r.weather_condition
    hour := r.start_time.map Timestamp.hour
    date := none
    weekday := r.start_time.map Timestamp.weekday }

/-- app.py `load_data` (lines 15-26): read at most 50000 rows, drop rows with
null `Street`/`City`/`Zipcode`/`Start_Lat`/`Start_Lng`, derive `Hour`/`Weekday`.
(The `End_Lat`/`End_Lng` column drop of line 21 touches no modelled column.) -/
def load_data_app (raw : List RawRecord) : List Record :=
  ((raw.take 50000).filter dropnaLocationApp).map deriveFeaturesApp

/-- The sidebar selections feeding milestone4.py's filter block (lines 88-99):
`selected_state` uses the sentinel string "All"; an empty `selected_city` /
`selected_weather` list means no restriction; `min_hour`/`max_hour` come from
the hour slider. -/
structure FilterCriteria where
  selected_state : String
  selected_city : List String
  min_hour : Nat
  max_hour : Nat
  selected_weather : List String
deriving DecidableEq, Repr

/-- milestone4.py lines 88-91: `df[df['State'] == selected_state]` unless the
"All" sentinel is selected. -/
def filterState (df : List Record) (c : FilterCriteria) : List Record :=
  if c.selected_state ≠ "All" then
    df.filter (fun r => r.state == some c.selected_state)
  else df

/-- milestone4.py lines 93-94: `df_filtered[df_filtered['City'].isin(selected_city)]`
when the city multiselect is non-empty.  `Series.isin` is False on a NaN cell. -/
def filterCity (df : List Record) (c : FilterCriteria) : List Record :=
  if c.selected_city ≠ [] then
    df.filter (fun r => c.selected_city.any (fun ct => r.city == some ct))
  else df

/-- milestone4.py line 96: `(df_filtered['Hour'] >= min_hour) & (df_filtered['Hour'] <= max_hour)`.
Pandas comparisons against a NaN `Hour` are False, so null-hour rows never pass. -/
def filterHour (df : List Record) (c : FilterCriteria) : List Record :=
  df.filter
    (fun r => r.hour.any (fun h => decide (c.min_hour ≤ h) && decide (h ≤ c.max_hour)))

/-- milestone4.py lines 98-99: `df_filtered[df_filtered['Weather_Condition'].isin(selected_weather)]`
when the weather multiselect is non-empty. -/
def filterWeather (df : List Record) (c : FilterCriteria) : List Record :=
  if c.selected_weather ≠ [] then
    df.filter (fun r => c.selected_weather.any (fun w => r.weather_condition == some w))
  else df

/-- milestone4.py lines 88-99, the compound filter: the four sequential
reassignments of `df_filtered` composed in source order. -/
def df_filtered (df : List Record) (c : FilterCriteria) : List Record :=
  filterWeather (filterHour (filterCity (filterState df c) c) c) c

theorem mem_filterState {df : List Record} {c : FilterCriteria} {r : Record} :
    r ∈ filterState df c ↔
      r ∈ df ∧ (c.selected_state ≠ "All" → r.state = some c.selected_state) := by
  unfold filterState
  by_cases hs : c.selected_state ≠ "All" <;>
    simp [hs, List.mem_filter]

theorem mem_filterCity {df : List Record} {c : FilterCriteria} {r : Record} :
    r ∈ filterCity df c ↔
      r ∈ df ∧ (c.selected_city ≠ [] → ∃ ct ∈ c.selected_city, r.city = some ct) := by
  unfold filterCity
  by_cases hc : c.selected_city ≠ [] <;>
    simp [hc, List.mem_filter, List.any_eq_true]

theorem mem_filterHour {df : List Record} {c : FilterCriteria} {r : Record} :
    r ∈ filterHour df c ↔
      r ∈ df ∧ ∃ h, r.hour = some h ∧ c.min_hour ≤ h ∧ h ≤ c.max_hour := by
  unfold filterHour
  cases hh : r.hour <;>
    simp [List.mem_filter, Option.any, hh]

theorem mem_filterWeather {df : List Record} {c : FilterCriteria} {r : Record} :
    r ∈ filterWeather df c ↔
      r ∈ df ∧
        (c.selected_weather ≠ [] →
          ∃ w ∈ c.selected_weather, r.weather_condition = some w) := by
  unfold filterWeather
  by_cases hw : c.selected_weather ≠ [] <;>
    simp [hw, List.mem_filter, List.any_eq_true]

/-- A sample record matching `crit1` below, for concrete instantiations. -/
def rec1 : Record :=
  { severity := 2
    start_time := some ⟨10, "Monday", "2023-03-01"⟩
    start_lat := some 34
    start_lng := some (-118)
    city := some "Los Angeles"
    state := some "CA"
    weather_condition := some "Rain"
    hour := some 10
    date := some "2023-03-01"
    weekday := some "Monday" }

/-- Sample criteria with all four filters active. -/
def crit1 : FilterCriteria :=
  { selected_state := "CA"
    selected_city := ["Los Angeles"]
    min_hour := 8
    max_hour := 12
    selected_weather := ["Rain"] }

/-- C1: every record returned by the filter block (milestone4.py lines 88-99)
is a member of the input dataset (no fabricated rows) and simultaneously
satisfies all four predicates: state match unless "All", city in the selected
set unless it is empty, non-null hour within the inclusive slider range, and
weather condition in the selected set unless it is empty. -/
theorem filter_engine_conjunctive (df : List Record) (c : FilterCriteria) (r : Record)
    (h : r ∈ df_filtered df c) :
    r ∈ df ∧
      (c.selected_state ≠ "All" → r.state = some c.selected_state) ∧
      (c.selected_city ≠ [] → ∃ ct ∈ c.selected_city, r.city = some ct) ∧
      (∃ hr, r.hour = some hr ∧ c.min_hour ≤ hr ∧ hr ≤ c.max_hour) ∧
      (c.selected_weather ≠ [] → ∃ w ∈ c.selected_weather, r.weather_condition = some w) := by
  unfold df_filtered at h
  rw [mem_filterWeather] at h
  obtain ⟨h, hw⟩ := h
  rw [mem_filterHour] at h
  obtain ⟨h, hh⟩ := h
  rw [mem_filterCity] at h
  obtain ⟨h, hc⟩ := h
  rw [mem_filterState] at h
  obtain ⟨h, hs⟩ := h
  exact ⟨h, hs, hc, hh, hw⟩

/-- Witness for C1 at a concrete dataset and criteria with all filters active. -/
theorem filter_engine_conjunctive_witness :
    rec1 ∈ [rec1] ∧
      ∃ hr, rec1.hour = some hr ∧ crit1.min_hour ≤ hr ∧ hr ≤ crit1.max_hour := by
  have h := filter_engine_conjunctive [rec1] crit1 rec1 (by decide)
  exact ⟨h.1, h.2.2.2.1⟩

/-- A raw row whose `Start_Time` failed to parse (NaT after `errors='coerce'`)
but whose location fields are all present. -/
def rawBad : RawRecord :=
  { severity := 3
    start_time := none
    start_lat := some 40
    start_lng := some (-74)
    city := some "New York"
    state := some "NY"
    weather_condition := some "Clear"
    street := some "Main St"
    zipcode := some "10001" }

/-- C2: a row whose `Start_Time` fails to parse is retained by `load_data`
(the dropna subset on line 50 does not include `Start_Time`) with null `Hour`,
`Weekday` and `Date`, and is excluded from the result of the filter block for
every criteria — the hour filter on line 96 never matches a null hour,
whatever the bounds. -/
theorem unparsable_retained_excluded (raw : List RawRecord) (x : RawRecord)
    (hmem : x ∈ raw.take 500000)
    (hkeep : dropnaLocation x = true)
    (ht : x.start_time = none) :
    deriveFeatures x ∈ load_data raw ∧
      (deriveFeatures x).hour = none ∧
      (deriveFeatures x).weekday = none ∧
      (deriveFeatures x).date = none ∧
      ∀ df c, deriveFeatures x ∉ df_filtered df c := by
  refine ⟨?_, ?_, ?_, ?_, ?_⟩
  · exact List.mem_map_of_mem deriveFeatures (List.mem_filter.mpr ⟨hmem, hkeep⟩)
  · simp [deriveFeatures, ht]
  · simp [deriveFeatures, ht]
  · simp [deriveFeatures, ht]
  · intro df c hmemf
    unfold df_filtered at hmemf
    have hh := ((mem_filterHour.mp (mem_filterWeather.mp hmemf).1).2)
    obtain ⟨hr, hsome, -⟩ := hh
    simp [deriveFeatures, ht] at hsome

/-- Witness for C2: the unparsable-time row survives loading with null hour and
is excluded even by the full hour range [0, 23] with no other filter active. -/
theorem unparsable_retained_excluded_witness :
    deriveFeatures rawBad ∈ load_data [rawBad] ∧
      (deriveFeatures rawBad).hour = none ∧
      deriveFeatures rawBad ∉ df_filtered (load_data [rawBad]) ⟨"All", [], 0, 23, []⟩ := by
  have h := unparsable_retained_excluded [rawBad] rawBad (by decide) (by decide) rfl
  exact ⟨h.1, h.2.1, h.2.2.2.2 _ _⟩

/-- A raw row with a null `State` cell but every dropna-subset field present. -/
def rawNoState : RawRecord :=
  { severity := 2
    start_time := some ⟨9, "Friday", "2023-03-03"⟩
    start_lat := some 37
    start_lng := some (-122)
    city := some "San Jose"
    state := none
    weather_condition := some "Fair"
    street := some "First St"
    zipcode := some "95113" }

/-- C4 counterexample: a row with a null `State` (region) survives both
ingestion variants — the dropna subsets (milestone4.py line 50, app.py line 22)
name `City`/`Start_Lat`/`Start_Lng` (plus `Street`/`Zipcode` in app.py) but
never `State` — so a surviving record can have a null region, contradicting the
claim that rows missing region are dropped. -/
theorem ingestion_required_fields_counterexample :
    load_data [rawNoState] = [deriveFeatures rawNoState] ∧
      (deriveFeatures rawNoState).state = none ∧
      load_data_app [rawNoState] = [deriveFeaturesApp rawNoState] ∧
      (deriveFeaturesApp rawNoState).state = none :=
  ⟨rfl, rfl, rfl, rfl⟩

/-- C4 amended: every record surviving either ingestion variant has non-null
`City`, `Start_Lat` and `Start_Lng` (app.py additionally requires `Street` and
`Zipcode` on the raw row); `State` (region) is not among the required fields. -/
theorem ingestion_required_fields (raw : List RawRecord) :
    (∀ r ∈ load_data raw,
      r.city.isSome ∧ r.start_lat.isSome ∧ r.start_lng.isSome) ∧
      (∀ r ∈ load_data_app raw,
        r.city.isSome ∧ r.start_lat.isSome ∧ r.start_lng.isSome) := by
  constructor
  · intro r hr
    obtain ⟨x, hx, rfl⟩ := List.mem_map.mp hr
    have hk := (List.mem_filter.mp hx).2
    simp only [dropnaLocation, Bool.and_eq_true] at hk
    exact ⟨hk.1.1, hk.1.2, hk.2⟩
  · intro r hr
    obtain ⟨x, hx, rfl⟩ := List.mem_map.mp hr
    have hk := (List.mem_filter.mp hx).2
    simp only [dropnaLocationApp, Bool.and_eq_true] at hk
    exact ⟨hk.1.1.1.2, hk.1.2, hk.2⟩

/-- Witness for C4 (amended) at a concrete surviving record. -/
theorem ingestion_required_fields_witness :
    (deriveFeatures rawNoState).city.isSome ∧
      (deriveFeatures rawNoState).start_lat.isSome ∧
      (deriveFeatures rawNoState).start_lng.isSome :=
  (ingestion_required_fields [rawNoState]).1 (deriveFeatures rawNoState) (by decide)

/-- A record with hour 4 passing every non-hour predicate of `crit` "All". -/
def rec4 : Record :=
  { severity := 3
    start_time := some ⟨4, "Tuesday", "2023-03-02"⟩
    start_lat := some 34
    start_lng := some (-118)
    city := some "Fresno"
    state := some "CA"
    weather_condition := some "Cloudy"
    hour := some 4
    date := some "2023-03-02"
    weekday := some "Tuesday" }

/-- C9 counterexample: with `min_hour = 5 > max_hour = 3` the filter block
returns the empty result set — silently, with no validation error anywhere in
the code (there is no error channel at all); the same dataset produces a
non-empty result for the valid range [0, 23], so the emptiness comes from the
inverted bounds, not from the data. -/
theorem inverted_hour_range_counterexample :
    df_filtered [rec4] ⟨"All", [], 5, 3, []⟩ = [] ∧
      df_filtered [rec4] ⟨"All", [], 0, 23, []⟩ = [rec4] := by
  constructor <;> rfl

/-- C9 amended: the filter engine performs no hour-range validation; whenever
`min_hour > max_hour` it silently returns the empty result set (the hour mask
on line 96 matches no row).  The UI slider can only produce
`min_hour ≤ max_hour`, so no validation code exists. -/
theorem inverted_hour_range_silent_empty (df : List Record) (c : FilterCriteria)
    (h : c.max_hour < c.min_hour) : df_filtered df c = [] := by
  unfold df_filtered
  have h3 : filterHour (filterCity (filterState df c) c) c = [] := by
    unfold filterHour
    apply List.filter_eq_nil_iff.mpr
    intro r _ hcontra
    cases hh : r.hour with
    | none => rw [hh] at hcontra; simp [Option.any] at hcontra
    | some hr =>
        rw [hh] at hcontra
        simp only [Option.any, Bool.and_eq_true, decide_eq_true_eq] at hcontra
        exact absurd (le_trans hcontra.1 hcontra.2) (not_le.mpr h)
  rw [h3]
  unfold filterWeather
  by_cases hw : c.selected_weather ≠ [] <;> simp [hw]

/-- Witness for C9 (amended) at the concrete inverted range 5..3. -/
theorem inverted_hour_range_silent_empty_witness :
    df_filtered [rec4] ⟨"All", [], 5, 3, []⟩ = [] :=
  inverted_hour_range_silent_empty [rec4] ⟨"All", [], 5, 3, []⟩ (by decide)

theorem le_foldr_max (l : List Nat) (a : Nat) (ha : a ∈ l) : a ≤ l.foldr max 0 := by
  induction l with
  | nil => cases ha
  | cons b l ih =>
      simp only [List.foldr_cons]
      rcases List.mem_cons.mp ha with rfl | h
      · exact le_max_left _ _
      · exact le_trans (ih h) (le_max_right _ _)

theorem foldr_max_mem (l : List Nat) : l.foldr max 0 ∈ l ∨ l.foldr max 0 = 0 := by
  induction l with
  | nil => right; rfl
  | cons b l ih =>
      simp only [List.foldr_cons]
      rcases max_choice b (l.foldr max 0) with hm | hm
      · left; rw [hm]; exact List.mem_cons_self _ _
      · rcases ih with h | h
        · left; rw [hm]; exact List.mem_cons_of_mem _ h
        · right; rw [hm, h]

theorem foldl_min_mem (ys : List String) (y : String) : ys.foldl min y ∈ y :: ys := by
  induction ys generalizing y with
  | nil => simp
  | cons a ys ih =>
      simp only [List.foldl_cons]
      rcases List.mem_cons.mp (ih (min y a)) with h | h
      · rcases min_choice y a with hm | hm
        · rw [h, hm]; exact List.mem_cons_self _ _
        · rw [h, hm]; exact List.mem_cons_of_mem _ (List.mem_cons_self _ _)
      · exact List.mem_cons_of_mem _ (List.mem_cons_of_mem _ h)

theorem foldl_min_le (ys : List String) (y : String) :
    ∀ z ∈ y :: ys, ys.foldl min y ≤ z := by
  induction ys generalizing y with
  | nil =>
      intro z hz
      have hy : z = y := by simpa using hz
      simp [hy]
  | cons a ys ih =>
      intro z hz
      simp only [List.foldl_cons]
      rcases List.mem_cons.mp hz with h | h
      · rw [h]
        exact le_trans (ih (min y a) _ (List.mem_cons_self _ _)) (min_le_left y a)
      · rcases List.mem_cons.mp h with h2 | h2
        · rw [h2]
          exact le_trans (ih (min y a) _ (List.mem_cons_self _ _)) (min_le_right y a)
        · exact ih (min y a) z (List.mem_cons_of_mem _ h2)

/-- Greatest per-value occurrence count in `xs` (0 when `xs` is empty). -/
def maxCount (xs : List String) : Nat :=
  (xs.map (fun v => xs.count v)).foldr max 0

/-- pandas `Series.mode()[0]` over the non-null cells `xs`: `Series.mode`
returns the values of maximal count SORTED ascending, so `[0]` selects the
least such value; `none` models the exception `[0]` raises when the mode
result is empty (i.e. when `xs` is empty). -/
def modePandas (xs : List String) : Option String :=
  match xs.filter (fun v => xs.count v == maxCount xs) with
  | [] => none
  | y :: ys => some (ys.foldl min y)

/-- The spec's stated tie-break rule, for comparison with `modePandas`: the
first value in source order whose occurrence count is maximal. -/
def modeFirstEncountered (xs : List String) : Option String :=
  xs.find? (fun v => xs.count v == maxCount xs)

theorem count_le_maxCount (xs : List String) (v : String) (hv : v ∈ xs) :
    xs.count v ≤ maxCount xs :=
  le_foldr_max _ _ (List.mem_map_of_mem _ hv)

theorem exists_count_eq_maxCount (xs : List String) (hne : xs ≠ []) :
    ∃ v ∈ xs, xs.count v = maxCount xs := by
  rcases foldr_max_mem (xs.map (fun v => xs.count v)) with h | h
  · obtain ⟨v, hv, hcv⟩ := List.mem_map.mp h
    exact ⟨v, hv, hcv⟩
  · obtain ⟨x, xs', rfl⟩ := List.exists_cons_of_ne_nil hne
    have h1 : 0 < (x :: xs').count x := List.count_pos_iff.mpr (List.mem_cons_self _ _)
    have h2 := count_le_maxCount (x :: xs') x (List.mem_cons_self _ _)
    have h3 : 0 < maxCount (x :: xs') := lt_of_lt_of_le h1 h2
    unfold maxCount at h3
    rw [h] at h3
    exact absurd h3 (lt_irrefl 0)

/-- `m` is a most frequent element of `xs`, least among the tied maxima. -/
def IsMinMode (m : String) (xs : List String) : Prop :=
  m ∈ xs ∧ (∀ y ∈ xs, xs.count y ≤ xs.count m) ∧
    ∀ y ∈ xs, xs.count y = xs.count m → m ≤ y

theorem modePandas_spec (xs : List String) (m : String)
    (h : modePandas xs = some m) : IsMinMode m xs := by
  unfold modePandas at h
  cases hcase : xs.filter (fun v => xs.count v == maxCount xs) with
  | nil => rw [hcase] at h; cases h
  | cons y ys =>
      rw [hcase] at h
      have hm : ys.foldl min y = m := by injection h
      have hmem : m ∈ xs.filter (fun v => xs.count v == maxCount xs) := by
        rw [hcase, ← hm]; exact foldl_min_mem ys y
      have hmx := List.mem_filter.mp hmem
      have hcount : xs.count m = maxCount xs := by
        have := hmx.2; simpa using this
      refine ⟨hmx.1, ?_, ?_⟩
      · intro z hz
        rw [hcount]
        exact count_le_maxCount xs z hz
      · intro z hz hzc
        have hzf : z ∈ xs.filter (fun v => xs.count v == maxCount xs) :=
          List.mem_filter.mpr ⟨hz, by simp [hzc, hcount]⟩
        rw [hcase] at hzf
        rw [← hm]
        exact foldl_min_le ys y z hzf

theorem modePandas_isSome (xs : List String) (hne : xs ≠ []) :
    (modePandas xs).isSome := by
  obtain ⟨v, hv, hcv⟩ := exists_count_eq_maxCount xs hne
  have hvf : v ∈ xs.filter (fun v => xs.count v == maxCount xs) :=
    List.mem_filter.mpr ⟨hv, by simp [hcv]⟩
  unfold modePandas
  cases hcase : xs.filter (fun v => xs.count v == maxCount xs) with
  | nil => rw [hcase] at hvf; cases hvf
  | cons y ys => simp

/-- Arithmetic mean of the `Severity` column: pandas `mean()` of an empty
column is NaN, modelled as `none`. -/
def meanSeverity (view : List Record) : Option ℚ :=
  if view.isEmpty then none
  else some ((view.map (fun r => (r.severity : ℚ))).sum / (view.length : ℚ))

/-- Result of milestone4.py's key-metrics block (lines 104-113): `noData` is
the `st.warning` + `st.stop` branch taken for an empty filtered view; `stats`
carries Total Accidents, Most Frequent City, Avg Severity (shown rounded to
two decimals; the exact rational is modelled) and optional Top Weather. -/
inductive Metrics where
  | noData : Metrics
  | stats (count : Nat) (mostFrequentCity : String) (avgSeverity : Option ℚ)
      (topWeather : Option String) : Metrics
deriving DecidableEq, Repr

/-- milestone4.py lines 104-113: the empty view short-circuits to the no-data
branch; otherwise Most Frequent City is `df_filtered['City'].mode()[0]`, Avg
Severity is `Severity.mean()`, and Top Weather is `Weather_Condition.mode()[0]`
shown only when that mode result is non-empty.  The outer `none` models an
uncaught exception from `mode()[0]` (unreachable through `load_data`, whose
surviving rows all have non-null City). -/
def summarize (view : List Record) : Option Metrics :=
  if view.isEmpty then some Metrics.noData
  else
    match modePandas (view.filterMap (fun r => r.city)) with
    | none => none
    | some mc =>
        some (Metrics.stats view.length mc (meanSeverity view)
          (modePandas (view.filterMap (fun r => r.weather_condition))))

/-- app.py's key-metrics row (lines 42-45). -/
structure MetricsApp where
  count : Nat
  mostFrequentCity : String
  avgSeverity : Option ℚ
deriving DecidableEq, Repr

/-- app.py lines 42-45: the metrics are computed with NO empty-view guard —
`df_filtered['City'].mode()[0]` and `Severity.mean()` run unconditionally.
`none` models the exception `mode()[0]` raises on an empty frame. -/
def metrics_app (view : List Record) : Option MetricsApp :=
  match modePandas (view.filterMap (fun r => r.city)) with
  | none => none
  | some mc => some ⟨view.length, mc, meanSeverity view⟩

/-- C3 counterexample: app.py's metrics block (lines 42-45, cited by the
claim) has no empty-view guard: on the empty filtered view
`df_filtered['City'].mode()[0]` raises (modelled as the `none` result) and
`Severity.mean()` is NaN (modelled as a `none` mean), so the Aggregator of
app.py does raise on an empty view, contrary to the claim. -/
theorem empty_view_metrics_counterexample :
    metrics_app ([] : List Record) = none ∧
      meanSeverity ([] : List Record) = none :=
  ⟨rfl, rfl⟩

/-- C3 amended: milestone4.py's metrics block short-circuits an empty filtered
view to the explicit no-data branch (`st.warning` + `st.stop`), computing
neither mode nor mean and producing no NaN field; app.py's block lacks the
guard and raises on an empty view. -/
theorem empty_view_no_data_signal :
    summarize ([] : List Record) = some Metrics.noData := rfl

/-- A minimal record carrying only a City value, for mode scenarios. -/
def recCity (ct : String) : Record :=
  { severity := 1
    start_time := none
    start_lat := some 0
    start_lng := some 0
    city := some ct
    state := some "TX"
    weather_condition := none
    hour := none
    date := none
    weekday := none }

/-- The view whose City column reads B, A, B, A: a 2-2 modal tie. -/
def viewBA : List Record :=
  [recCity "B", recCity "A", recCity "B", recCity "A"]

theorem modePandas_eq_of_filter (xs : List String) (y : String) (ys : List String)
    (h : xs.filter (fun v => xs.count v == maxCount xs) = y :: ys) :
    modePandas xs = some (ys.foldl min y) := by
  unfold modePandas
  rw [h]

theorem summarize_eq_of_mode (view : List Record) (mc : String)
    (hne : view.isEmpty = false)
    (h : modePandas (view.filterMap (fun r => r.city)) = some mc) :
    summarize view =
      some (Metrics.stats view.length mc (meanSeverity view)
        (modePandas (view.filterMap (fun r => r.weather_condition)))) := by
  unfold summarize
  rw [hne]
  simp only [Bool.false_eq_true, if_false]
  rw [h]

theorem modePandas_BABA : modePandas ["B", "A", "B", "A"] = some "A" := by
  have hBA : min ("B" : String) "A" = "A" := by
    rw [min_def, if_neg (by rw [String.le_iff_toList_le]; decide)]
  have hAB : min ("A" : String) "B" = "A" := by
    rw [min_def, if_pos (by rw [String.le_iff_toList_le]; decide)]
  rw [modePandas_eq_of_filter ["B", "A", "B", "A"] "B" ["A", "B", "A"] (by decide)]
  simp only [List.foldl_cons, List.foldl_nil]
  rw [hBA, hAB, min_self]

theorem summarize_viewBA :
    summarize viewBA = some (Metrics.stats 4 "A" (some 1) none) := by
  have h1 : meanSeverity viewBA = some 1 := by
    simp [meanSeverity, viewBA, recCity]
    norm_num
  rw [summarize_eq_of_mode viewBA "A" rfl (by exact modePandas_BABA), h1]
  rfl

/-- C5 counterexample: on a view whose City column reads B, A, B, A (a 2-2
tie), the code's `mode()[0]` — pandas sorts the modes — reports "A", while the
claimed first-encountered-in-source-order rule picks "B". -/
theorem modal_tiebreak_counterexample :
    summarize viewBA = some (Metrics.stats 4 "A" (some 1) none) ∧
      modeFirstEncountered (viewBA.filterMap (fun r => r.city)) = some "B" :=
  ⟨summarize_viewBA, rfl⟩

/-- C5 amended: whenever the metrics block reports stats, the modal city is a
most-frequent City value with ties broken by the LEAST value (pandas sorts the
modes before `[0]`), not by first encounter; the Top Weather value, when
shown, obeys the same least-value tie-break over the non-null
Weather_Condition values. -/
theorem modal_min_tiebreak (view : List Record) (n : Nat) (mc : String)
    (avg : Option ℚ) (tw : Option String)
    (h : summarize view = some (Metrics.stats n mc avg tw)) :
    IsMinMode mc (view.filterMap (fun r => r.city)) ∧
      ∀ w, tw = some w →
        IsMinMode w (view.filterMap (fun r => r.weather_condition)) := by
  unfold summarize at h
  by_cases he : view.isEmpty
  · simp [he] at h
  · rw [if_neg he] at h
    cases hm : modePandas (view.filterMap (fun r => r.city)) with
    | none => rw [hm] at h; cases h
    | some mc' =>
        rw [hm] at h
        simp only [Option.some.injEq, Metrics.stats.injEq] at h
        obtain ⟨-, hmc, -, htw⟩ := h
        constructor
        · rw [← hmc]
          exact modePandas_spec _ _ hm
        · intro w hw
          apply modePandas_spec
          rw [htw, hw]

/-- Witness for C5 (amended): on the B, A, B, A view the reported modal city
"A" is indeed a most-frequent value and least among the tied maxima. -/
theorem modal_min_tiebreak_witness :
    IsMinMode "A" (viewBA.filterMap (fun r => r.city)) :=
  (modal_min_tiebreak viewBA 4 "A" (some 1) none summarize_viewBA).1

/-- pandas `DataFrame.sample(n)` draws `n` distinct row positions, without
replacement, chosen by the (unseeded) random generator; the generator's choice
is modelled as a permutation `perm` of the row-position range, of which the
first `n` positions are used. -/
def sample (view : List Record) (n : Nat) (perm : List Nat) : List Record :=
  (perm.take n).filterMap (fun i => view.get? i)

/-- milestone4.py line 128 (and likewise app.py line 80):
`df_filtered.sample(min(1000, len(df_filtered)))`. -/
def marker_data (view : List Record) (perm : List Nat) : List Record :=
  sample view (min 1000 view.length) perm

theorem filterMap_get?_length (view : List Record) :
    ∀ idx : List Nat, (∀ i ∈ idx, i < view.length) →
      (idx.filterMap (fun i => view.get? i)).length = idx.length := by
  intro idx
  induction idx with
  | nil => intro _; rfl
  | cons i idx ih =>
      intro hvalid
      have hi : i < view.length := hvalid i (List.mem_cons_self _ _)
      simp only [List.filterMap_cons, List.get?_eq_get hi, List.length_cons]
      rw [ih (fun j hj => hvalid j (List.mem_cons_of_mem _ hj))]

theorem filterMap_get?_eq_map (view : List Record) :
    ∀ idx : List Nat, (∀ i ∈ idx, i < view.length) →
      idx.filterMap (fun i => view.get? i) =
        idx.map (fun i => view.getD i default) := by
  intro idx
  induction idx with
  | nil => intro _; rfl
  | cons i idx ih =>
      intro hvalid
      have hi : i < view.length := hvalid i (List.mem_cons_self _ _)
      simp only [List.filterMap_cons, List.get?_eq_get hi, List.map_cons]
      rw [ih (fun j hj => hvalid j (List.mem_cons_of_mem _ hj))]
      congr 1
      rw [show view.getD i default = (view.get? i).getD default from rfl,
        List.get?_eq_get hi]
      rfl

theorem map_getD_range (l : List Record) :
    (List.range l.length).map (fun i => l.getD i default) = l := by
  induction l with
  | nil => rfl
  | cons a l ih =>
      rw [List.length_cons, List.range_succ_eq_map, List.map_cons, List.map_map]
      have htail : List.map ((fun i => (a :: l).getD i default) ∘ Nat.succ)
          (List.range l.length) = l := by
        rw [show ((fun i => (a :: l).getD i default) ∘ Nat.succ) =
          (fun i => l.getD i default) from rfl]
        exact ih
      rw [htail]
      rfl

/-- C6: provided the generator's position order is a permutation of the row
positions, `sample(view, min(cap, len(view)))` returns exactly
`min(cap, |view|)` records, forms a sub-permutation of `view` (each row drawn
without replacement, so no row of the view is used twice), every sampled
record is an element of the view, and the empty view yields the empty sample
rather than an error.  milestone4.py line 128 and app.py line 80 instantiate
`cap = 1000` via `marker_data`. -/
theorem sample_spec (view : List Record) (cap : Nat) (perm : List Nat)
    (hperm : List.Perm perm (List.range view.length)) :
    (sample view (min cap view.length) perm).length = min cap view.length ∧
      List.Subperm (sample view (min cap view.length) perm) view ∧
      (∀ r ∈ sample view (min cap view.length) perm, r ∈ view) ∧
      (view = [] → sample view (min cap view.length) perm = []) := by
  have hplen : perm.length = view.length := by
    rw [hperm.length_eq, List.length_range]
  have hvalid : ∀ i ∈ perm.take (min cap view.length), i < view.length := by
    intro i hi
    exact List.mem_range.mp (hperm.mem_iff.mp (List.mem_of_mem_take hi))
  have hlen : (sample view (min cap view.length) perm).length = min cap view.length := by
    unfold sample
    rw [filterMap_get?_length view _ hvalid, List.length_take, hplen,
      min_assoc, min_self]
  have hnodup : (perm.take (min cap view.length)).Nodup :=
    List.Nodup.sublist (List.take_sublist _ _)
      (hperm.nodup_iff.mpr (List.nodup_range _))
  have hsub : List.Subperm (sample view (min cap view.length) perm) view := by
    have hidx : List.Subperm (perm.take (min cap view.length))
        (List.range view.length) :=
      List.Nodup.subperm hnodup (fun i hi => List.mem_range.mpr (hvalid i hi))
    obtain ⟨w, hwperm, hwsub⟩ := hidx
    unfold sample
    rw [filterMap_get?_eq_map view _ hvalid]
    refine ⟨w.map (fun i => view.getD i default), hwperm.map _, ?_⟩
    have hws := hwsub.map (fun i => view.getD i default)
    rw [map_getD_range] at hws
    exact hws
  refine ⟨hlen, hsub, fun r hr => hsub.subset hr, ?_⟩
  intro hv
  subst hv
  have hp0 : perm = [] := by
    rw [List.length_nil, List.range_zero] at hperm
    exact hperm.eq_nil
  rw [hp0]
  unfold sample
  rw [List.take_nil]
  rfl

/-- Witness for C6 at the two-row view, cap 1, generator order [1, 0]. -/
theorem sample_spec_witness :
    (sample [rec1, rec4] (min 1 (List.length [rec1, rec4])) [1, 0]).length =
      min 1 (List.length [rec1, rec4]) :=
  (sample_spec [rec1, rec4] 1 [1, 0] (by decide)).1

/-- pandas `Series.unique()`: the distinct values in order of first
appearance. -/
def pdUnique (xs : List String) : List String :=
  xs.foldl (fun acc v => if v ∈ acc then acc else acc ++ [v]) []

theorem mem_pdUnique_foldl (xs : List String) :
    ∀ (acc : List String) (v : String),
      (v ∈ xs.foldl (fun acc v => if v ∈ acc then acc else acc ++ [v]) acc) ↔
        v ∈ acc ∨ v ∈ xs := by
  induction xs with
  | nil => intro acc v; simp
  | cons a xs ih =>
      intro acc v
      simp only [List.foldl_cons]
      rw [ih]
      by_cases h : a ∈ acc
      · by_cases hva : v = a <;> simp [h, hva]
      · simp [h, List.mem_append, or_assoc]

theorem mem_pdUnique (xs : List String) (v : String) :
    v ∈ pdUnique xs ↔ v ∈ xs := by
  unfold pdUnique
  rw [mem_pdUnique_foldl]
  simp

/-- milestone4.py line 72:
`sorted(df[df['State'] == selected_state]['City'].unique())` — the locality
options are exactly the distinct City values of the already region-filtered
frame, sorted ascending. -/
def city_list (df : List Record) (selected_state : String) : List String :=
  (pdUnique ((df.filter (fun r => r.state == some selected_state)).filterMap
    (fun r => r.city))).mergeSort (fun a b => decide (a ≤ b))

/-- C7: for a selected region, the offered locality options are exactly the
localities observed among that region's records in the loaded dataset —
computed from the region-filtered subset, never from the global locality
set. -/
theorem city_options_region_dependent (df : List Record) (s ct : String) :
    ct ∈ city_list df s ↔ ∃ r ∈ df, r.state = some s ∧ r.city = some ct := by
  unfold city_list
  rw [(List.mergeSort_perm _ _).mem_iff, mem_pdUnique]
  simp only [List.mem_filterMap, List.mem_filter, beq_iff_eq]
  constructor
  · rintro ⟨r, ⟨hr, hs⟩, hc⟩
    exact ⟨r, hr, hs, hc⟩
  · rintro ⟨r, hr, hs, hc⟩
    exact ⟨r, ⟨hr, hs⟩, hc⟩

/-- milestone4.py line 82:
`weather_options = df['Weather_Condition'].dropna().unique().tolist()` —
computed on the FULL loaded frame `df`, not on the region/locality-filtered
`df_filtered`. -/
def weather_options (df : List Record) : List String :=
  pdUnique (df.filterMap (fun r => r.weather_condition))

/-- C10: the weather-condition options are exactly the non-null
Weather_Condition values occurring anywhere in the loaded dataset; they are a
function of the full dataset alone, taking no region or locality selection
into account (unlike the locality options of `city_list`). -/
theorem weather_options_global (df : List Record) (w : String) :
    w ∈ weather_options df ↔ ∃ r ∈ df, r.weather_condition = some w := by
  unfold weather_options
  rw [mem_pdUnique]
  simp only [List.mem_filterMap]

/-- Modelled from the spec: the process-wide load cache is supplied by the
`@st.cache_data` decorator (milestone4.py line 22, app.py line 14), library
code not part of this repository.  Per spec §4.2 it maps the call key to the
previously produced dataset; `loadCount` counts underlying source reads (the
observable in spec §8's load-count test).  `load_data` takes no arguments, so
there is a single key. -/
structure CacheState where
  cached : Option (List Record)
  loadCount : Nat
deriving Repr

/-- Modelled from the spec: `get_or_load` returns the cached dataset on a hit
with no re-read of the source; on a miss it runs the ingestion, stores the
result and returns it. -/
def get_or_load (raw : List RawRecord) (s : CacheState) : List Record × CacheState :=
  match s.cached with
  | some d => (d, s)
  | none => (load_data raw, ⟨some (load_data raw), s.loadCount + 1⟩)

/-- C8: two consecutive `get_or_load` calls from any starting cache state
return datasets with identical content, and the second call performs no
re-read of the source (the load counter is unchanged); from the empty cache
the ingestion runs exactly once across both calls. -/
theorem cache_idempotent (raw : List RawRecord) (s : CacheState) :
    (get_or_load raw (get_or_load raw s).2).1 = (get_or_load raw s).1 ∧
      ((get_or_load raw (get_or_load raw s).2).2).loadCount =
        ((get_or_load raw s).2).loadCount ∧
      ((get_or_load raw (⟨none, 0⟩ : CacheState)).2).loadCount = 1 := by
  cases hc : s.cached <;> simp [get_or_load, hc]
